import Mathlib

/-!
Verification of the Kerberos ticket module (`library/kerberos.ticket.py`).

The module obtains a Kerberos ticket for `username@realm` via the external
primitives `klist -s` (cache status), `klist -l` (cache listing),
`kdestroy -q -p <principal>` (destroy) and an `echo -n '<password>' | kinit`
pipeline (acquisition), all invoked through `os.popen` on a shell command
string.  We embed `run_module` as a pure function from the request
parameters and an environment (the responses of the external primitives)
to an outcome consisting of the module exit (`exit_json` / `fail_json`),
the ordered list of shell command lines passed to `os.popen`, and the
final state of the module-level globals `cmd` and `password` after the
`atexit`-registered `clear_sensitive_data` handler has run.
-/

namespace KerberosTicket

/-- Raw request parameters as they arrive at `AnsibleModule`:
`username`, `password`, `realm` are required (`none` = absent, which makes
argument validation fail before `run_module` proceeds); `force` defaults to
`False`; `forwardable` defaults to `None`; `checkMode` is Ansible's
check (dry-run) mode. -/
structure RawParams where
  username : Option String
  password : Option String
  realm : Option String
  force : Option Bool
  forwardable : Option Bool
  checkMode : Bool
deriving DecidableEq

/-- Responses of the external world to the shell invocations.
`klistStatusExit` is the value `shell.close()` returns for `klist -s`:
`none` models Python `None` (exit status 0, a valid ticket exists) and
`some c` a nonzero shell exit status `c` — including `127`, the shell's
command-not-found status, which is how a failure to invoke the primitive
at all manifests through `os.popen`.  `listing` is the text read from
`klist -l`.  `kinitExit` is `shell.close()` for the kinit pipeline
(`none` = success) and `kinitOutput` the text read from it (stderr of
kinit, redirected by `2>&1 >/dev/null`). -/
structure Env where
  klistStatusExit : Option Nat
  listing : String
  kinitExit : Option Nat
  kinitOutput : String
deriving DecidableEq

/-- The `result` dict built at the top of `run_module`. -/
structure ModuleResult where
  changed : Bool
  username : String
  password : String
  realm : String
  principal : String
  force : Bool
  forwardable : String
deriving DecidableEq

/-- How the request ends: `module.exit_json(**result)`,
`module.fail_json(msg=..., **result)`, or the `AnsibleModule` argument
validation failing before `run_module`'s body runs. -/
inductive ModuleExit where
  | exitJson (r : ModuleResult)
  | failJson (msg : String) (r : ModuleResult)
  | validationError
deriving DecidableEq

/-- The module-level globals `cmd` and `password` (`none` models both the
initial `None` and the unbound state after `del`). -/
structure Globals where
  cmd : Option String
  password : Option String
deriving DecidableEq

/-- Full observable outcome of one invocation of `run_module`:
the exit, the ordered shell command lines passed to `os.popen`, the
globals at the moment `exit_json`/`fail_json` fires, and whether
`atexit.register(clear_sensitive_data)` had been reached. -/
structure RunOutcome where
  exit : ModuleExit
  trace : List String
  globalsAtExit : Globals
  atexitRegistered : Bool
deriving DecidableEq

/-- `clear_sensitive_data`: `del cmd, password` followed by `gc.collect()`;
both globals end up unbound (modelled as `none`). -/
def clear_sensitive_data (_ : Globals) : Globals :=
  { cmd := none, password := none }

/-- Globals after the process exits: the `atexit` handler runs exactly
when it was registered. -/
def finalGlobals (o : RunOutcome) : Globals :=
  if o.atexitRegistered then clear_sensitive_data o.globalsAtExit else o.globalsAtExit

/-- Byte-for-byte the command `'klist -s'`. -/
def klist_s_cmd : String := "klist -s"

/-- Byte-for-byte the command `'klist -l'`. -/
def klist_l_cmd : String := "klist -l"

/-- The command `"kdestroy -q -p %s 2>&1" % principal`. -/
def kdestroy_cmd (principal : String) : String :=
  "kdestroy -q -p " ++ principal ++ " 2>&1"

/-- The command
`"echo -n '%s' | kinit %s %s 2>&1 >/dev/null" % (password, forwardable, principal)`. -/
def kinit_cmd (password forwardable principal : String) : String :=
  "echo -n \x27" ++ password ++ "\x27 | kinit " ++ forwardable ++ " " ++ principal
    ++ " 2>&1 >/dev/null"

/-- `forwardable` effective token: `''` when the parameter is `None`
(system default), `'-f'` when `True`, `'-F'` when `False`. -/
def forwardable_flag : Option Bool → String
  | none => ""
  | some true => "-f"
  | some false => "-F"

/-- Does the character list `n` stand at the front of `h`? -/
def leadsWith : List Char → List Char → Bool
  | [], _ => true
  | _ :: _, [] => false
  | a :: as, b :: bs => a == b && leadsWith as bs

/-- Does `n` occur as a contiguous sublist of `h`? -/
def findSub (n : List Char) : List Char → Bool
  | [] => n.isEmpty
  | c :: t => leadsWith n (c :: t) || findSub n t

/-- Python's `hay.find(needle) != -1`: substring presence
(an empty needle is always found, as in Python). -/
def pyFindSub (hay needle : String) : Bool :=
  findSub needle.toList hay.toList

/-- The `result` dict of lines 134–142: `changed = False`, the echoed
request fields, the redacted password, `principal = username + '@' + realm`
and the effective `forwardable` token. -/
def baseResult (username realm : String) (force : Bool) (forwardable : String) :
    ModuleResult :=
  { changed := false, username := username, password := "[REDACTED]",
    realm := realm, principal := username ++ "@" ++ realm, force := force,
    forwardable := forwardable }

/-- The acquisition step (lines 190–202): build the kinit pipeline command
with the password interpolated, run it, on nonzero exit `fail_json` with
the raw output as `msg`; on success set `cmd = None`, `password = None`,
`result['changed'] = True` and `exit_json`.  `trace0` is the list of
commands already invoked on this path. -/
def acquireStep (env : Env) (password forwardable principal : String)
    (result : ModuleResult) (trace0 : List String) : RunOutcome :=
  let kcmd := kinit_cmd password forwardable principal
  match env.kinitExit with
  | some _ =>
      { exit := ModuleExit.failJson env.kinitOutput result,
        trace := trace0 ++ [kcmd],
        globalsAtExit := { cmd := some kcmd, password := some password },
        atexitRegistered := true }
  | none =>
      { exit := ModuleExit.exitJson { result with changed := true },
        trace := trace0 ++ [kcmd],
        globalsAtExit := { cmd := none, password := none },
        atexitRegistered := true }

/-- Shallow embedding of `run_module` (lines 99–202).  Control flow is
mirrored branch for branch: argument validation (required parameters),
`atexit` registration, the `result` dict, the check-mode block, the
force / `klist -s` / `klist -l` decision, and the acquisition step. -/
def run_module (rp : RawParams) (env : Env) : RunOutcome :=
  match rp.username, rp.password, rp.realm with
  | some username, some password, some realm =>
      let force := rp.force.getD false
      let forwardable := forwardable_flag rp.forwardable
      let principal := username ++ "@" ++ realm
      let result : ModuleResult := baseResult username realm force forwardable
      if rp.checkMode then
        if force then
          { exit := ModuleExit.exitJson { result with changed := true },
            trace := [],
            globalsAtExit := { cmd := none, password := some password },
            atexitRegistered := true }
        else if env.klistStatusExit = none then
          if pyFindSub env.listing principal then
            { exit := ModuleExit.exitJson result,
              trace := [klist_s_cmd, klist_l_cmd],
              globalsAtExit := { cmd := some klist_l_cmd, password := some password },
              atexitRegistered := true }
          else
            { exit := ModuleExit.exitJson { result with changed := true },
              trace := [klist_s_cmd, klist_l_cmd],
              globalsAtExit := { cmd := some klist_l_cmd, password := some password },
              atexitRegistered := true }
        else
          { exit := ModuleExit.exitJson { result with changed := true },
            trace := [klist_s_cmd],
            globalsAtExit := { cmd := some klist_s_cmd, password := some password },
            atexitRegistered := true }
      else if force then
        acquireStep env password forwardable principal result [kdestroy_cmd principal]
      else if env.klistStatusExit = none then
        if pyFindSub env.listing principal then
          { exit := ModuleExit.exitJson result,
            trace := [klist_s_cmd, klist_l_cmd],
            globalsAtExit := { cmd := some klist_l_cmd, password := some password },
            atexitRegistered := true }
        else
          acquireStep env password forwardable principal result [klist_s_cmd, klist_l_cmd]
      else
        acquireStep env password forwardable principal result [klist_s_cmd]
  | _, _, _ =>
      { exit := ModuleExit.validationError, trace := [],
        globalsAtExit := { cmd := none, password := none },
        atexitRegistered := false }

/-- Result record carried on any exit that carries one. -/
def exitResult : ModuleExit → Option ModuleResult
  | ModuleExit.exitJson r => some r
  | ModuleExit.failJson _ r => some r
  | ModuleExit.validationError => none

/-- Diagnostic text of a failure exit. -/
def exitDiag : ModuleExit → Option String
  | ModuleExit.failJson m _ => some m
  | _ => none

/-- Outcomes of `n` repeated invocations against the same cache state. -/
def repeatRun (rp : RawParams) (env : Env) : Nat → List RunOutcome
  | 0 => []
  | n + 1 => run_module rp env :: repeatRun rp env n

/-- A parameter record in which the three required fields are present,
so that `AnsibleModule` validation passes. -/
def mkParams (u p r : String) (f fw : Option Bool) (cm : Bool) : RawParams :=
  { username := some u, password := some p, realm := some r,
    force := f, forwardable := fw, checkMode := cm }

/-- World with no valid ticket: `klist -s` exits 1, kinit succeeds. -/
def envNoTicket : Env :=
  { klistStatusExit := some 1, listing := "", kinitExit := none, kinitOutput := "" }

/-- World where `klist` itself cannot be invoked: the shell reports
command-not-found (exit status 127). -/
def envKlist127 : Env :=
  { klistStatusExit := some 127, listing := "", kinitExit := none, kinitOutput := "" }

/-- World with a valid ticket whose listing contains `alice@EXAMPLE.COM`. -/
def envValidAlice : Env :=
  { klistStatusExit := none, listing := "Principal: alice@EXAMPLE.COM",
    kinitExit := none, kinitOutput := "" }

/-- World with a valid ticket whose listing contains only `bob@EXAMPLE.COM`. -/
def envValidBobOnly : Env :=
  { klistStatusExit := none, listing := "Principal: bob@EXAMPLE.COM",
    kinitExit := none, kinitOutput := "" }

/-- World with no valid ticket where kinit fails with `bad password`. -/
def envKinitFail : Env :=
  { klistStatusExit := some 1, listing := "", kinitExit := some 1,
    kinitOutput := "bad password" }

/- ------------------------------------------------------------------
Branch lemmas: `run_module` evaluated on each arm of its decision tree.
------------------------------------------------------------------ -/

theorem acquireStep_success {env : Env} (p fwd pr : String) (res : ModuleResult)
    (t0 : List String) (hki : env.kinitExit = none) :
    acquireStep env p fwd pr res t0 =
      { exit := ModuleExit.exitJson { res with changed := true },
        trace := t0 ++ [kinit_cmd p fwd pr],
        globalsAtExit := { cmd := none, password := none },
        atexitRegistered := true } := by
  simp [acquireStep, hki]

theorem acquireStep_failure {env : Env} (p fwd pr : String) (res : ModuleResult)
    (t0 : List String) (c : Nat) (hki : env.kinitExit = some c) :
    acquireStep env p fwd pr res t0 =
      { exit := ModuleExit.failJson env.kinitOutput res,
        trace := t0 ++ [kinit_cmd p fwd pr],
        globalsAtExit := { cmd := some (kinit_cmd p fwd pr), password := some p },
        atexitRegistered := true } := by
  simp [acquireStep, hki]

theorem run_check_force (u p r : String) (f fw : Option Bool) (env : Env)
    (hf : f.getD false = true) :
    run_module (mkParams u p r f fw true) env =
      { exit := ModuleExit.exitJson
          { baseResult u r true (forwardable_flag fw) with changed := true },
        trace := [],
        globalsAtExit := { cmd := none, password := some p },
        atexitRegistered := true } := by
  simp [run_module, mkParams, hf]

theorem run_check_noforce_valid_found (u p r : String) (f fw : Option Bool) (env : Env)
    (hf : f.getD false = false) (hks : env.klistStatusExit = none)
    (hfind : pyFindSub env.listing (u ++ "@" ++ r) = true) :
    run_module (mkParams u p r f fw true) env =
      { exit := ModuleExit.exitJson (baseResult u r false (forwardable_flag fw)),
        trace := [klist_s_cmd, klist_l_cmd],
        globalsAtExit := { cmd := some klist_l_cmd, password := some p },
        atexitRegistered := true } := by
  simp [run_module, mkParams, hf, hks, hfind]

theorem run_check_noforce_valid_notfound (u p r : String) (f fw : Option Bool) (env : Env)
    (hf : f.getD false = false) (hks : env.klistStatusExit = none)
    (hfind : pyFindSub env.listing (u ++ "@" ++ r) = false) :
    run_module (mkParams u p r f fw true) env =
      { exit := ModuleExit.exitJson
          { baseResult u r false (forwardable_flag fw) with changed := true },
        trace := [klist_s_cmd, klist_l_cmd],
        globalsAtExit := { cmd := some klist_l_cmd, password := some p },
        atexitRegistered := true } := by
  simp [run_module, mkParams, hf, hks, hfind]

theorem run_check_noforce_invalid (u p r : String) (f fw : Option Bool) (env : Env)
    (hf : f.getD false = false) (c : Nat) (hks : env.klistStatusExit = some c) :
    run_module (mkParams u p r f fw true) env =
      { exit := ModuleExit.exitJson
          { baseResult u r false (forwardable_flag fw) with changed := true },
        trace := [klist_s_cmd],
        globalsAtExit := { cmd := some klist_s_cmd, password := some p },
        atexitRegistered := true } := by
  simp [run_module, mkParams, hf, hks]

theorem run_real_force (u p r : String) (f fw : Option Bool) (env : Env)
    (hf : f.getD false = true) :
    run_module (mkParams u p r f fw false) env =
      acquireStep env p (forwardable_flag fw) (u ++ "@" ++ r)
        (baseResult u r true (forwardable_flag fw))
        [kdestroy_cmd (u ++ "@" ++ r)] := by
  simp [run_module, mkParams, hf]

theorem run_real_noforce_valid_found (u p r : String) (f fw : Option Bool) (env : Env)
    (hf : f.getD false = false) (hks : env.klistStatusExit = none)
    (hfind : pyFindSub env.listing (u ++ "@" ++ r) = true) :
    run_module (mkParams u p r f fw false) env =
      { exit := ModuleExit.exitJson (baseResult u r false (forwardable_flag fw)),
        trace := [klist_s_cmd, klist_l_cmd],
        globalsAtExit := { cmd := some klist_l_cmd, password := some p },
        atexitRegistered := true } := by
  simp [run_module, mkParams, hf, hks, hfind]

theorem run_real_noforce_valid_notfound (u p r : String) (f fw : Option Bool) (env : Env)
    (hf : f.getD false = false) (hks : env.klistStatusExit = none)
    (hfind : pyFindSub env.listing (u ++ "@" ++ r) = false) :
    run_module (mkParams u p r f fw false) env =
      acquireStep env p (forwardable_flag fw) (u ++ "@" ++ r)
        (baseResult u r false (forwardable_flag fw))
        [klist_s_cmd, klist_l_cmd] := by
  simp [run_module, mkParams, hf, hks, hfind]

theorem run_real_noforce_invalid (u p r : String) (f fw : Option Bool) (env : Env)
    (hf : f.getD false = false) (c : Nat) (hks : env.klistStatusExit = some c) :
    run_module (mkParams u p r f fw false) env =
      acquireStep env p (forwardable_flag fw) (u ++ "@" ++ r)
        (baseResult u r false (forwardable_flag fw))
        [klist_s_cmd] := by
  simp [run_module, mkParams, hf, hks]

/- ------------------------------------------------------------------
Claim theorems.
------------------------------------------------------------------ -/

/-- C2: on every exit path of a request — normal completion, acquisition
failure, validation rejection, and the no-op path where the secret is
never consumed — the module globals `cmd` and `password` hold nothing
once the request finishes: the `atexit`-registered `clear_sensitive_data`
handler (registered before any exit of `run_module`'s body) unbinds both,
and on validation rejection the secret was never stored in them. -/
theorem C2_scrub_guarantee (rp : RawParams) (env : Env) :
    finalGlobals (run_module rp env) = { cmd := none, password := none } := by
  obtain ⟨ou, op, orl, f, fw, cm⟩ := rp
  obtain ⟨ks, lst, ki, ko⟩ := env
  cases ou <;> cases op <;> cases orl <;> cases cm <;> cases ks <;> cases ki <;>
    simp [run_module, acquireStep, finalGlobals, clear_sensitive_data] <;>
    split_ifs <;> simp

/-- C9: `changed` is `true` only after a confirmed successful mutating
action: a `fail_json` exit always carries `changed = false`; an
`exit_json` with `changed = true` happens only in check mode or when the
kinit pipeline reported success; and in check mode `changed = true` is
reported exactly when the decision logic confirms an action would occur
(force set, no valid ticket, or principal absent from the listing). -/
theorem C9_changed_invariant (rp : RawParams) (env : Env) :
    (∀ m res, (run_module rp env).exit = ModuleExit.failJson m res → res.changed = false)
    ∧ (∀ res, (run_module rp env).exit = ModuleExit.exitJson res → res.changed = true →
        (rp.checkMode = true ∨ env.kinitExit = none))
    ∧ (∀ res, (run_module rp env).exit = ModuleExit.exitJson res → res.changed = true →
        rp.checkMode = true →
        (rp.force.getD false
          || !((env.klistStatusExit == none) && pyFindSub env.listing res.principal)) = true) := by
  obtain ⟨ou, op, orl, f, fw, cm⟩ := rp
  obtain ⟨ks, lst, ki, ko⟩ := env
  refine ⟨?_, ?_, ?_⟩
  · intro m res h
    cases ou <;> cases op <;> cases orl <;> cases cm <;> cases ks <;> cases ki <;>
      simp_all [run_module, acquireStep, baseResult] <;>
      (try split_ifs at h) <;> aesop
  · intro res h hc
    cases ou <;> cases op <;> cases orl <;> cases cm <;> cases ks <;> cases ki <;>
      simp_all [run_module, acquireStep, baseResult] <;>
      (try split_ifs at h) <;> aesop
  · intro res h hc hcm
    cases ou <;> cases op <;> cases orl <;> cases cm <;> cases ks <;> cases ki <;>
      simp_all [run_module, acquireStep, baseResult] <;>
      (try split_ifs at h) <;> aesop

/-- C9 witness: on a concrete failing execution (kinit fails with `bad
password`), the carried result reports `changed = false`. -/
theorem C9_changed_invariant_witness :
    (baseResult "alice" "EXAMPLE.COM" false "").changed = false :=
  (C9_changed_invariant (mkParams "alice" "pw" "EXAMPLE.COM" none none false) envKinitFail).1
    "bad password" (baseResult "alice" "EXAMPLE.COM" false "") (by decide)

/-- C10: on every exit path that carries a result (no-op, successful
acquisition, acquisition failure, and both check-mode exits), the fields
`username`, `realm`, `principal = username@realm`, `force`, the effective
forwardable token and the redacted password are exactly the values
derived from the request inputs before any external call, for every
environment — only `changed` (and the failure diagnostic) varies. -/
theorem C10_result_frame (u p r : String) (f fw : Option Bool) (cm : Bool) (env : Env) :
    ∀ res, exitResult (run_module (mkParams u p r f fw cm) env).exit = some res →
      res.username = u ∧ res.realm = r ∧ res.principal = u ++ "@" ++ r
      ∧ res.force = f.getD false ∧ res.forwardable = forwardable_flag fw
      ∧ res.password = "[REDACTED]" := by
  obtain ⟨ks, lst, ki, ko⟩ := env
  intro res hres
  cases cm <;> cases hf : f.getD false <;> cases ks <;> cases ki <;>
    simp_all [run_module, mkParams, acquireStep, exitResult, baseResult] <;>
    (try split_ifs at hres) <;> aesop

/-- C10 witness: concrete successful acquisition for `alice@EXAMPLE.COM`
with all defaults; the carried result has exactly the derived fields. -/
theorem C10_result_frame_witness :
    ({ baseResult "alice" "EXAMPLE.COM" false "" with changed := true } : ModuleResult).username = "alice"
    ∧ ({ baseResult "alice" "EXAMPLE.COM" false "" with changed := true } : ModuleResult).realm = "EXAMPLE.COM"
    ∧ ({ baseResult "alice" "EXAMPLE.COM" false "" with changed := true } : ModuleResult).principal = "alice@EXAMPLE.COM"
    ∧ ({ baseResult "alice" "EXAMPLE.COM" false "" with changed := true } : ModuleResult).force = false
    ∧ ({ baseResult "alice" "EXAMPLE.COM" false "" with changed := true } : ModuleResult).forwardable = ""
    ∧ ({ baseResult "alice" "EXAMPLE.COM" false "" with changed := true } : ModuleResult).password = "[REDACTED]" :=
  C10_result_frame "alice" "pw" "EXAMPLE.COM" none none false envNoTicket
    { baseResult "alice" "EXAMPLE.COM" false "" with changed := true } (by decide)

/-- C4: a check-mode (dry-run) request, for every combination of force,
ticket validity and principal match, invokes only the status and listing
primitives (never destroy or acquire) and exits with the hypothetical
`changed` value: true exactly when force is set, no valid ticket exists,
or the principal is absent from the listing. -/
theorem C4_dry_run_purity (u p r : String) (f fw : Option Bool) (env : Env) :
    (∀ c ∈ (run_module (mkParams u p r f fw true) env).trace,
        c = klist_s_cmd ∨ c = klist_l_cmd)
    ∧ ∃ res, (run_module (mkParams u p r f fw true) env).exit = ModuleExit.exitJson res
        ∧ res.changed = (f.getD false
            || !((env.klistStatusExit == none)
                  && pyFindSub env.listing (u ++ "@" ++ r))) := by
  cases hf : f.getD false <;> cases hks : env.klistStatusExit <;>
    cases hfind : pyFindSub env.listing (u ++ "@" ++ r) <;>
    simp_all [run_module, mkParams, baseResult]

/-- C4 witness: check mode against a cache already valid for the
principal; the status command is among the (read-only) trace commands and
the reported hypothetical `changed` matches the decision logic. -/
theorem C4_dry_run_purity_witness :
    (klist_s_cmd = klist_s_cmd ∨ klist_s_cmd = klist_l_cmd)
    ∧ ∃ res, (run_module (mkParams "alice" "pw" "EXAMPLE.COM" none none true) envValidAlice).exit
          = ModuleExit.exitJson res
        ∧ res.changed = (((none : Option Bool).getD false)
            || !((envValidAlice.klistStatusExit == none)
                  && pyFindSub envValidAlice.listing ("alice" ++ "@" ++ "EXAMPLE.COM"))) :=
  ⟨(C4_dry_run_purity "alice" "pw" "EXAMPLE.COM" none none envValidAlice).1
      klist_s_cmd (by decide),
   (C4_dry_run_purity "alice" "pw" "EXAMPLE.COM" none none envValidAlice).2⟩

/-- C5: with `force = true` and not check mode, the module invokes the
destroy primitive for the principal and then the acquisition pipeline
(for every environment, i.e. ignoring whether a ticket existed), and on
confirmed acquisition exits with `changed = true`; in check mode with
`force = true` it exits with `changed = true` having invoked nothing. -/
theorem C5_force_dominance (u p r : String) (fw : Option Bool) (env : Env) :
    ((run_module (mkParams u p r (some true) fw false) env).trace
        = [kdestroy_cmd (u ++ "@" ++ r),
           kinit_cmd p (forwardable_flag fw) (u ++ "@" ++ r)]
      ∧ (env.kinitExit = none →
          (run_module (mkParams u p r (some true) fw false) env).exit
            = ModuleExit.exitJson
                { baseResult u r true (forwardable_flag fw) with changed := true }))
    ∧ ((run_module (mkParams u p r (some true) fw true) env).trace = []
      ∧ (run_module (mkParams u p r (some true) fw true) env).exit
          = ModuleExit.exitJson
              { baseResult u r true (forwardable_flag fw) with changed := true }) := by
  refine ⟨⟨?_, ?_⟩, ?_, ?_⟩
  · rw [run_real_force u p r (some true) fw env rfl]
    cases hki : env.kinitExit <;> simp [acquireStep, hki]
  · intro hki
    rw [run_real_force u p r (some true) fw env rfl,
        acquireStep_success _ _ _ _ _ hki]
  · rw [run_check_force u p r (some true) fw env rfl]
  · rw [run_check_force u p r (some true) fw env rfl]

/-- C5 witness: forcing against a cache already valid for the principal
still yields `changed = true` after the destroy + acquire pair. -/
theorem C5_force_dominance_witness :
    (run_module (mkParams "alice" "pw" "EXAMPLE.COM" (some true) none false) envValidAlice).exit
      = ModuleExit.exitJson { baseResult "alice" "EXAMPLE.COM" true "" with changed := true } :=
  ((C5_force_dominance "alice" "pw" "EXAMPLE.COM" none envValidAlice).1).2 rfl

/-- C6: with a valid ticket whose listing contains the principal and
`force = false`, every one of `n` repeated invocations (the cache is
untouched: each trace is exactly the two read-only klist commands, no
destroy or acquire) exits with `changed = false`, for any `n`. -/
theorem C6_idempotence (u p r : String) (f fw : Option Bool) (env : Env) (n : Nat)
    (hf : f.getD false = false) (hks : env.klistStatusExit = none)
    (hfind : pyFindSub env.listing (u ++ "@" ++ r) = true) :
    ∀ o ∈ repeatRun (mkParams u p r f fw false) env n,
      o.exit = ModuleExit.exitJson (baseResult u r false (forwardable_flag fw))
      ∧ o.trace = [klist_s_cmd, klist_l_cmd] := by
  induction n with
  | zero => intro o ho; simp [repeatRun] at ho
  | succ k ih =>
      intro o ho
      simp only [repeatRun, List.mem_cons] at ho
      rcases ho with h | h
      · subst h
        rw [run_real_noforce_valid_found u p r f fw env hf hks hfind]
        exact ⟨rfl, rfl⟩
      · exact ih o h

/-- C6 witness: three repeated invocations against a cache valid for
`alice@EXAMPLE.COM`, applied to the first of them. -/
theorem C6_idempotence_witness :
    (run_module (mkParams "alice" "pw" "EXAMPLE.COM" none none false) envValidAlice).exit
        = ModuleExit.exitJson (baseResult "alice" "EXAMPLE.COM" false "")
    ∧ (run_module (mkParams "alice" "pw" "EXAMPLE.COM" none none false) envValidAlice).trace
        = [klist_s_cmd, klist_l_cmd] :=
  C6_idempotence "alice" "pw" "EXAMPLE.COM" none none envValidAlice 3
    (by decide) (by decide) (by decide)
    (run_module (mkParams "alice" "pw" "EXAMPLE.COM" none none false) envValidAlice)
    (by simp [repeatRun])

/-- C7: whenever the acquisition pipeline runs (force set, no valid
ticket, or principal absent) and reports failure, the request ends in
`fail_json` carrying the pipeline's raw output verbatim as `msg` together
with the best-effort result fields, whose `changed` is `false`. -/
theorem C7_failure_diagnostic (u p r : String) (f fw : Option Bool) (env : Env) (c : Nat)
    (hki : env.kinitExit = some c)
    (hreach : f.getD false = true ∨ env.klistStatusExit ≠ none
      ∨ pyFindSub env.listing (u ++ "@" ++ r) = false) :
    (run_module (mkParams u p r f fw false) env).exit
      = ModuleExit.failJson env.kinitOutput
          (baseResult u r (f.getD false) (forwardable_flag fw)) := by
  rcases hreach with hf | hks | hfind
  · rw [run_real_force u p r f fw env hf, acquireStep_failure _ _ _ _ _ c hki]
    simp [hf]
  · cases hks2 : env.klistStatusExit with
    | none => exact absurd hks2 hks
    | some cc =>
        cases hfv : f.getD false
        · rw [run_real_noforce_invalid u p r f fw env hfv cc hks2,
              acquireStep_failure _ _ _ _ _ c hki]
        · rw [run_real_force u p r f fw env hfv,
              acquireStep_failure _ _ _ _ _ c hki]
  · cases hfv : f.getD false
    · cases hks2 : env.klistStatusExit with
      | none =>
          rw [run_real_noforce_valid_notfound u p r f fw env hfv hks2 hfind,
              acquireStep_failure _ _ _ _ _ c hki]
      | some cc =>
          rw [run_real_noforce_invalid u p r f fw env hfv cc hks2,
              acquireStep_failure _ _ _ _ _ c hki]
    · rw [run_real_force u p r f fw env hfv, acquireStep_failure _ _ _ _ _ c hki]

/-- C7 witness: kinit fails with `bad password`; the exit is `fail_json`
with that exact diagnostic and `changed = false`. -/
theorem C7_failure_diagnostic_witness :
    (run_module (mkParams "alice" "pw" "EXAMPLE.COM" none none false) envKinitFail).exit
      = ModuleExit.failJson "bad password" (baseResult "alice" "EXAMPLE.COM" false "") :=
  C7_failure_diagnostic "alice" "pw" "EXAMPLE.COM" none none envKinitFail 1 rfl
    (Or.inr (Or.inl (by decide)))

/-- C8: with `force = false`, a valid ticket whose listing does not
contain the principal substring still leads to the acquisition pipeline
being invoked for that principal, and on success the exit reports
`changed = true`. -/
theorem C8_principal_specificity (u p r : String) (f fw : Option Bool) (env : Env)
    (hf : f.getD false = false) (hks : env.klistStatusExit = none)
    (hfind : pyFindSub env.listing (u ++ "@" ++ r) = false) :
    kinit_cmd p (forwardable_flag fw) (u ++ "@" ++ r)
        ∈ (run_module (mkParams u p r f fw false) env).trace
    ∧ (env.kinitExit = none →
        (run_module (mkParams u p r f fw false) env).exit
          = ModuleExit.exitJson
              { baseResult u r false (forwardable_flag fw) with changed := true }) := by
  constructor
  · rw [run_real_noforce_valid_notfound u p r f fw env hf hks hfind]
    cases hki : env.kinitExit <;> simp [acquireStep, hki]
  · intro hki
    rw [run_real_noforce_valid_notfound u p r f fw env hf hks hfind,
        acquireStep_success _ _ _ _ _ hki]

/-- C8 witness: cache valid only for `bob@EXAMPLE.COM`, request for
`alice@EXAMPLE.COM`: acquire is invoked and `changed = true`. -/
theorem C8_principal_specificity_witness :
    (run_module (mkParams "alice" "pw" "EXAMPLE.COM" none none false) envValidBobOnly).exit
        = ModuleExit.exitJson { baseResult "alice" "EXAMPLE.COM" false "" with changed := true }
    ∧ kinit_cmd "pw" "" "alice@EXAMPLE.COM"
        ∈ (run_module (mkParams "alice" "pw" "EXAMPLE.COM" none none false) envValidBobOnly).trace :=
  ⟨(C8_principal_specificity "alice" "pw" "EXAMPLE.COM" none none envValidBobOnly
      (by decide) (by decide) (by decide)).2 rfl,
   (C8_principal_specificity "alice" "pw" "EXAMPLE.COM" none none envValidBobOnly
      (by decide) (by decide) (by decide)).1⟩

/-- C1 counterexample: the shell command line the module hands to
`os.popen` for acquisition contains the secret verbatim — here a run for
`alice@EXAMPLE.COM` with password `hunter2` and no existing ticket passes
a command line of which `hunter2` is a substring, refuting "the secret
never appears in the argument list / command line passed to any external
primitive". -/
theorem C1_counterexample :
    (run_module (mkParams "alice" "hunter2" "EXAMPLE.COM" none none false) envNoTicket).trace
      = [klist_s_cmd,
         "echo -n \x27hunter2\x27 | kinit  alice@EXAMPLE.COM 2>&1 >/dev/null"]
    ∧ pyFindSub "echo -n \x27hunter2\x27 | kinit  alice@EXAMPLE.COM 2>&1 >/dev/null"
        "hunter2" = true :=
  ⟨rfl, by decide⟩

/-- C1 (amended): the rendered password field is always the literal
redaction marker; the failure diagnostic is exactly the primitive's raw
output (the engine never injects the secret into it); and the status,
listing and destroy command lines are secret-free templates — but the
secret IS interpolated into the acquisition pipeline's shell command
line, where it reaches kinit through the `echo`-to-stdin pipe rather
than through kinit's own arguments. -/
theorem C1_secret_exposure_amended (u p r : String) (f fw : Option Bool) (cm : Bool)
    (env : Env) :
    (∀ res, exitResult (run_module (mkParams u p r f fw cm) env).exit = some res →
        res.password = "[REDACTED]")
    ∧ (∀ m, exitDiag (run_module (mkParams u p r f fw cm) env).exit = some m →
        m = env.kinitOutput)
    ∧ (∀ c, c ∈ (run_module (mkParams u p r f fw cm) env).trace →
        c = klist_s_cmd ∨ c = klist_l_cmd ∨ c = kdestroy_cmd (u ++ "@" ++ r)
        ∨ c = kinit_cmd p (forwardable_flag fw) (u ++ "@" ++ r)) := by
  obtain ⟨ks, lst, ki, ko⟩ := env
  refine ⟨?_, ?_, ?_⟩
  · intro res hres
    cases cm <;> cases hf : f.getD false <;> cases ks <;> cases ki <;>
      simp_all [run_module, mkParams, acquireStep, exitResult, baseResult] <;>
      (try split_ifs at hres) <;> aesop
  · intro m hm
    cases cm <;> cases hf : f.getD false <;> cases ks <;> cases ki <;>
      simp_all [run_module, mkParams, acquireStep, exitDiag, baseResult] <;>
      (try split_ifs at hm) <;> aesop
  · intro c hc
    cases cm <;> cases hf : f.getD false <;> cases ks <;> cases ki <;>
      simp_all [run_module, mkParams, acquireStep, baseResult] <;>
      (try split_ifs at hc) <;> aesop

/-- C1 witness: a concrete no-op run; the carried result's password
field is the redaction marker. -/
theorem C1_secret_exposure_amended_witness :
    (baseResult "alice" "EXAMPLE.COM" false "").password = "[REDACTED]" :=
  (C1_secret_exposure_amended "alice" "hunter2" "EXAMPLE.COM" none none false
      envValidAlice).1 (baseResult "alice" "EXAMPLE.COM" false "") (by decide)

/-- C3 counterexample: the status primitive "cannot be invoked"
(the shell reports command-not-found, exit status 127); the module does
not raise any distinct error — it silently treats this exactly like
"no valid ticket", invokes the acquisition pipeline, and exits normally
with `changed = true`. -/
theorem C3_counterexample :
    (run_module (mkParams "alice" "pw" "EXAMPLE.COM" none none false) envKlist127).trace
      = [klist_s_cmd, kinit_cmd "pw" "" "alice@EXAMPLE.COM"]
    ∧ (run_module (mkParams "alice" "pw" "EXAMPLE.COM" none none false) envKlist127).exit
      = ModuleExit.exitJson
          { baseResult "alice" "EXAMPLE.COM" false "" with changed := true } :=
  ⟨rfl, rfl⟩

/-- C3 (amended): any nonzero exit of the `klist -s` invocation —
including the shell's command-not-found status for an uninvokable
primitive — is treated identically to "no valid ticket": with force unset
the engine proceeds to invoke acquisition, and the exit is never a
distinct validation/invocation error. -/
theorem C3_invocation_failure_amended (u p r : String) (f fw : Option Bool)
    (env : Env) (c : Nat)
    (hf : f.getD false = false) (hks : env.klistStatusExit = some c) :
    kinit_cmd p (forwardable_flag fw) (u ++ "@" ++ r)
        ∈ (run_module (mkParams u p r f fw false) env).trace
    ∧ (run_module (mkParams u p r f fw false) env).exit ≠ ModuleExit.validationError := by
  rw [run_real_noforce_invalid u p r f fw env hf c hks]
  cases hki : env.kinitExit <;> simp [acquireStep, hki]

/-- C3 witness: concrete run with the status primitive failing to invoke
(exit 127); acquisition is invoked and the exit is not an error distinct
from the normal outcomes. -/
theorem C3_invocation_failure_amended_witness :
    kinit_cmd "pw2" "" "bob@EXAMPLE.COM"
        ∈ (run_module (mkParams "bob" "pw2" "EXAMPLE.COM" none none false) envKlist127).trace
    ∧ (run_module (mkParams "bob" "pw2" "EXAMPLE.COM" none none false) envKlist127).exit
        ≠ ModuleExit.validationError :=
  C3_invocation_failure_amended "bob" "pw2" "EXAMPLE.COM" none none envKlist127 127
    (by decide) rfl

end KerberosTicket
